import Mathlib

/-!
Verification of the account-attribute inference engine of the analyzer bot
(`src/info.py`).  The engine is a pure transformation from raw account
signals (numeric identifier, optional language tag, optional phone string,
presence descriptor) to estimated attributes: registration date, country
label and last-seen status label.  The definitions below are a shallow
embedding of the methods `_estimate_registration_date`, `_estimate_country`,
`_country_from_lang_code`, `_country_from_phone` and `_get_user_status`
of class `TelegramAccountAnalyzer`, together with the aggregation step of
`get_user_info` that assembles the attribute record.

Modelling conventions:
* Python `datetime` values are modelled as integer timestamps in seconds;
  `timedelta` normalization (`days`, `seconds`) is floor division / modulus
  by 86400, exactly as Python computes it, so `Int.fdiv` / `Int.fmod`.
* Python dictionaries are association lists looked up with `List.find?`
  (insertion order preserved; all keys here are distinct).
* A `try/except` body whose input could make the Python code raise is
  modelled by an input sum type with an explicit `garbled` constructor;
  the `except` branch of the source maps `garbled` to the sentinel value
  the source returns there.
* Python `str.isdigit` is modelled by `Char.isDigit` (the decimal digits;
  all inputs of interest are ASCII).
-/

/-- A calendar date as carried by the calibration table of
`_estimate_registration_date` (`{'year': …, 'month': …, 'day': …}`). -/
structure DateInfo where
  year : Nat
  month : Nat
  day : Nat
deriving DecidableEq, Repr, BEq

/-- The `accuracy` field of a registration estimate: `'approximate'` on the
normal path, `'failed'` on the exception path. -/
inductive Accuracy where
  | approximate
  | failed
deriving DecidableEq, Repr

/-- A date field of a registration estimate: a number on the normal path,
the string sentinel `'Unknown'` on the exception path. -/
inductive DateField where
  | num (n : Nat)
  | unknownField
deriving DecidableEq, Repr

/-- The dictionary returned by `_estimate_registration_date`:
`{'year': …, 'month': …, 'day': …, 'estimated': …, 'accuracy': …}`. -/
structure RegEstimate where
  year : DateField
  month : DateField
  day : DateField
  estimated : Bool
  accuracy : Accuracy
deriving DecidableEq, Repr

/-- The identifier reaching `_estimate_registration_date`: either a genuine
non-negative integer, or a garbled (non-numeric) value whose comparison with
the thresholds would raise inside the `try` block. -/
inductive UserIdInput where
  | valid (n : Nat)
  | garbled
deriving DecidableEq, Repr
def id_ranges : List (Nat × DateInfo) := [
  (1000, ⟨2013, 8, 14⟩),
  (10000, ⟨2013, 9, 15⟩),
  (100000, ⟨2013, 11, 1⟩),
  (1000000, ⟨2014, 3, 1⟩),
  (10000000, ⟨2015, 6, 1⟩),
  (50000000, ⟨2016, 6, 1⟩),
  (100000000, ⟨2017, 1, 1⟩),
  (200000000, ⟨2017, 8, 1⟩),
  (400000000, ⟨2018, 6, 1⟩),
  (600000000, ⟨2019, 3, 1⟩),
  (800000000, ⟨2019, 9, 1⟩),
  (1000000000, ⟨2020, 3, 1⟩),
  (1200000000, ⟨2020, 8, 1⟩),
  (1400000000, ⟨2021, 1, 1⟩),
  (1600000000, ⟨2021, 6, 1⟩),
  (1800000000, ⟨2022, 1, 1⟩),
  (2000000000, ⟨2022, 6, 1⟩),
  (2200000000, ⟨2023, 1, 1⟩),
  (2400000000, ⟨2023, 6, 1⟩),
  (2600000000, ⟨2024, 1, 1⟩)]

def lang_country_map : List (String × String) := [
  ("en", "English Speaking Region"),
  ("ru", "Russia/CIS Countries"),
  ("es", "Spain/Latin America"),
  ("pt", "Portugal/Brazil"),
  ("fr", "France/Francophone Countries"),
  ("de", "Germany/DACH Region"),
  ("it", "Italy"),
  ("tr", "Turkey"),
  ("ar", "Arabic Speaking Countries"),
  ("fa", "Iran/Persian Speaking"),
  ("hi", "India/Hindi Speaking"),
  ("zh", "China/Chinese Speaking"),
  ("ja", "Japan"),
  ("ko", "South Korea"),
  ("uk", "Ukraine"),
  ("pl", "Poland"),
  ("nl", "Netherlands"),
  ("sv", "Sweden"),
  ("da", "Denmark"),
  ("no", "Norway"),
  ("fi", "Finland"),
  ("cs", "Czech Republic"),
  ("hu", "Hungary"),
  ("ro", "Romania"),
  ("bg", "Bulgaria"),
  ("hr", "Croatia"),
  ("sk", "Slovakia"),
  ("sl", "Slovenia"),
  ("et", "Estonia"),
  ("lv", "Latvia"),
  ("lt", "Lithuania"),
  ("el", "Greece"),
  ("he", "Israel"),
  ("th", "Thailand"),
  ("vi", "Vietnam"),
  ("id", "Indonesia"),
  ("ms", "Malaysia"),
  ("tl", "Philippines"),
  ("bn", "Bangladesh/Bengal"),
  ("ur", "Pakistan/Urdu Speaking"),
  ("ta", "Tamil Speaking Regions"),
  ("te", "Telugu Speaking Regions"),
  ("ml", "Malayalam Speaking Regions"),
  ("kn", "Kannada Speaking Regions"),
  ("gu", "Gujarati Speaking Regions"),
  ("pa", "Punjabi Speaking Regions"),
  ("ne", "Nepal"),
  ("si", "Sri Lanka"),
  ("my", "Myanmar"),
  ("km", "Cambodia"),
  ("lo", "Laos"),
  ("ka", "Georgia"),
  ("hy", "Armenia"),
  ("az", "Azerbaijan"),
  ("kk", "Kazakhstan"),
  ("ky", "Kyrgyzstan"),
  ("uz", "Uzbekistan"),
  ("tg", "Tajikistan"),
  ("tk", "Turkmenistan"),
  ("mn", "Mongolia"),
  ("be", "Belarus"),
  ("mk", "North Macedonia"),
  ("sq", "Albania"),
  ("sr", "Serbia"),
  ("bs", "Bosnia and Herzegovina"),
  ("me", "Montenegro"),
  ("is", "Iceland"),
  ("mt", "Malta"),
  ("ga", "Ireland"),
  ("cy", "Wales"),
  ("gd", "Scotland"),
  ("eu", "Basque Region"),
  ("ca", "Catalonia"),
  ("gl", "Galicia"),
  ("af", "South Africa/Afrikaans"),
  ("sw", "East Africa/Swahili"),
  ("am", "Ethiopia"),
  ("zu", "South Africa/Zulu"),
  ("xh", "South Africa/Xhosa"),
  ("yo", "Nigeria/Yoruba"),
  ("ig", "Nigeria/Igbo"),
  ("ha", "West Africa/Hausa")]

def country_codes : List (String × String) := [
  ("1", "USA/Canada"),
  ("7", "Russia/Kazakhstan"),
  ("20", "Egypt"),
  ("27", "South Africa"),
  ("30", "Greece"),
  ("31", "Netherlands"),
  ("32", "Belgium"),
  ("33", "France"),
  ("34", "Spain"),
  ("36", "Hungary"),
  ("39", "Italy"),
  ("40", "Romania"),
  ("41", "Switzerland"),
  ("43", "Austria"),
  ("44", "United Kingdom"),
  ("45", "Denmark"),
  ("46", "Sweden"),
  ("47", "Norway"),
  ("48", "Poland"),
  ("49", "Germany"),
  ("51", "Peru"),
  ("52", "Mexico"),
  ("53", "Cuba"),
  ("54", "Argentina"),
  ("55", "Brazil"),
  ("56", "Chile"),
  ("57", "Colombia"),
  ("58", "Venezuela"),
  ("60", "Malaysia"),
  ("61", "Australia"),
  ("62", "Indonesia"),
  ("63", "Philippines"),
  ("64", "New Zealand"),
  ("65", "Singapore"),
  ("66", "Thailand"),
  ("81", "Japan"),
  ("82", "South Korea"),
  ("84", "Vietnam"),
  ("86", "China"),
  ("90", "Turkey"),
  ("91", "India"),
  ("92", "Pakistan"),
  ("93", "Afghanistan"),
  ("94", "Sri Lanka"),
  ("95", "Myanmar"),
  ("98", "Iran"),
  ("212", "Morocco"),
  ("213", "Algeria"),
  ("216", "Tunisia"),
  ("218", "Libya"),
  ("220", "Gambia"),
  ("221", "Senegal"),
  ("222", "Mauritania"),
  ("223", "Mali"),
  ("224", "Guinea"),
  ("225", "Ivory Coast"),
  ("226", "Burkina Faso"),
  ("227", "Niger"),
  ("228", "Togo"),
  ("229", "Benin"),
  ("230", "Mauritius"),
  ("231", "Liberia"),
  ("232", "Sierra Leone"),
  ("233", "Ghana"),
  ("234", "Nigeria"),
  ("235", "Chad"),
  ("236", "Central African Republic"),
  ("237", "Cameroon"),
  ("238", "Cape Verde"),
  ("239", "S√£o Tom√© and Pr√≠ncipe"),
  ("240", "Equatorial Guinea"),
  ("241", "Gabon"),
  ("242", "Republic of the Congo"),
  ("243", "Democratic Republic of the Congo"),
  ("244", "Angola"),
  ("245", "Guinea-Bissau"),
  ("246", "British Indian Ocean Territory"),
  ("248", "Seychelles"),
  ("249", "Sudan"),
  ("250", "Rwanda"),
  ("251", "Ethiopia"),
  ("252", "Somalia"),
  ("253", "Djibouti"),
  ("254", "Kenya"),
  ("255", "Tanzania"),
  ("256", "Uganda"),
  ("257", "Burundi"),
  ("258", "Mozambique"),
  ("260", "Zambia"),
  ("261", "Madagascar"),
  ("262", "R√©union"),
  ("263", "Zimbabwe"),
  ("264", "Namibia"),
  ("265", "Malawi"),
  ("266", "Lesotho"),
  ("267", "Botswana"),
  ("268", "Eswatini"),
  ("269", "Comoros"),
  ("290", "Saint Helena"),
  ("291", "Eritrea"),
  ("297", "Aruba"),
  ("298", "Faroe Islands"),
  ("299", "Greenland"),
  ("350", "Gibraltar"),
  ("351", "Portugal"),
  ("352", "Luxembourg"),
  ("353", "Ireland"),
  ("354", "Iceland"),
  ("355", "Albania"),
  ("356", "Malta"),
  ("357", "Cyprus"),
  ("358", "Finland"),
  ("359", "Bulgaria"),
  ("370", "Lithuania"),
  ("371", "Latvia"),
  ("372", "Estonia"),
  ("373", "Moldova"),
  ("374", "Armenia"),
  ("375", "Belarus"),
  ("376", "Andorra"),
  ("377", "Monaco"),
  ("378", "San Marino"),
  ("380", "Ukraine"),
  ("381", "Serbia"),
  ("382", "Montenegro"),
  ("383", "Kosovo"),
  ("385", "Croatia"),
  ("386", "Slovenia"),
  ("387", "Bosnia and Herzegovina"),
  ("389", "North Macedonia"),
  ("420", "Czech Republic"),
  ("421", "Slovakia"),
  ("423", "Liechtenstein"),
  ("500", "Falkland Islands"),
  ("501", "Belize"),
  ("502", "Guatemala"),
  ("503", "El Salvador"),
  ("504", "Honduras"),
  ("505", "Nicaragua"),
  ("506", "Costa Rica"),
  ("507", "Panama"),
  ("508", "Saint Pierre and Miquelon"),
  ("509", "Haiti"),
  ("590", "Guadeloupe"),
  ("591", "Bolivia"),
  ("592", "Guyana"),
  ("593", "Ecuador"),
  ("594", "French Guiana"),
  ("595", "Paraguay"),
  ("596", "Martinique"),
  ("597", "Suriname"),
  ("598", "Uruguay"),
  ("599", "Netherlands Antilles"),
  ("670", "East Timor"),
  ("672", "Australian External Territories"),
  ("673", "Brunei"),
  ("674", "Nauru"),
  ("675", "Papua New Guinea"),
  ("676", "Tonga"),
  ("677", "Solomon Islands"),
  ("678", "Vanuatu"),
  ("679", "Fiji"),
  ("680", "Palau"),
  ("681", "Wallis and Futuna"),
  ("682", "Cook Islands"),
  ("683", "Niue"),
  ("684", "American Samoa"),
  ("685", "Samoa"),
  ("686", "Kiribati"),
  ("687", "New Caledonia"),
  ("688", "Tuvalu"),
  ("689", "French Polynesia"),
  ("690", "Tokelau"),
  ("691", "Federated States of Micronesia"),
  ("692", "Marshall Islands"),
  ("850", "North Korea"),
  ("852", "Hong Kong"),
  ("853", "Macau"),
  ("855", "Cambodia"),
  ("856", "Laos"),
  ("880", "Bangladesh"),
  ("886", "Taiwan"),
  ("960", "Maldives"),
  ("961", "Lebanon"),
  ("962", "Jordan"),
  ("963", "Syria"),
  ("964", "Iraq"),
  ("965", "Kuwait"),
  ("966", "Saudi Arabia"),
  ("967", "Yemen"),
  ("968", "Oman"),
  ("970", "Palestine"),
  ("971", "United Arab Emirates"),
  ("972", "Israel"),
  ("973", "Bahrain"),
  ("974", "Qatar"),
  ("975", "Bhutan"),
  ("976", "Mongolia"),
  ("977", "Nepal"),
  ("992", "Tajikistan"),
  ("993", "Turkmenistan"),
  ("994", "Azerbaijan"),
  ("995", "Georgia"),
  ("996", "Kyrgyzstan"),
  ("998", "Uzbekistan")]

/-- The catch-all date returned when the identifier is at least every
threshold (`return {'year': 2024, 'month': 6, 'day': 1, …}`). -/
def catchAllDate : DateInfo := ⟨2024, 6, 1⟩

/-- The `for threshold, date_info in id_ranges: if user_id < threshold:
return date_info` scan, with the catch-all date when no threshold wins. -/
def scanRanges : List (Nat × DateInfo) → Nat → DateInfo
  | [], _ => catchAllDate
  | (t, d) :: rest, n => if n < t then d else scanRanges rest n

/-- Wraps a calibration date into the dictionary returned on the normal
path: `{**date_info, 'estimated': True, 'accuracy': 'approximate'}`. -/
def regOf (d : DateInfo) : RegEstimate :=
  ⟨.num d.year, .num d.month, .num d.day, true, .approximate⟩

/-- `TelegramAccountAnalyzer._estimate_registration_date`: scan the
calibration table in order and return the first bucket whose threshold
strictly exceeds the identifier; the `except` branch returns the
`'Unknown'` sentinels with `accuracy='failed'`. -/
def estimateRegistrationDate : UserIdInput → RegEstimate
  | .valid n => regOf (scanRanges id_ranges n)
  | .garbled => ⟨.unknownField, .unknownField, .unknownField, true, .failed⟩

/-- `lang_code.lower()`: lowercase each character (the table keys are
two-letter ASCII tags). -/
def lowered (s : String) : String := ⟨s.data.map Char.toLower⟩

/-- `TelegramAccountAnalyzer._country_from_lang_code`:
`lang_country_map.get(lang_code.lower(), 'Unknown')`. -/
def countryFromLangCode (lang_code : String) : String :=
  match lang_country_map.find? (fun e => e.1 == lowered lang_code) with
  | some e => e.2
  | none => "Unknown"

/-- `''.join(filter(str.isdigit, phone))`: the digit characters of the
phone string, in order. -/
def digitsOf (p : String) : String := ⟨p.data.filter Char.isDigit⟩

/-- Dictionary membership plus indexing, `code in tbl` / `tbl[code]`. -/
def lookupIn (tbl : List (String × String)) (code : String) : Option String :=
  (tbl.find? (fun e => e.1 == code)).map (fun e => e.2)

/-- The `for length in [3, 2, 1]` loop of `_country_from_phone`: for each
length in order, if the digit string is long enough and its prefix of that
length is a key of the table, return the mapped country; otherwise
`'Unknown'` after the loop. -/
def tryCodeLengths (tbl : List (String × String)) (digits : String) :
    List Nat → String
  | [] => "Unknown"
  | n :: rest =>
    if n ≤ digits.length then
      match lookupIn tbl ⟨digits.data.take n⟩ with
      | some c => c
      | none => tryCodeLengths tbl digits rest
    else tryCodeLengths tbl digits rest

/-- `TelegramAccountAnalyzer._country_from_phone`.  The source guard
`if not phone or len(phone) < 2` tests the raw string before stripping;
an empty string has length `0 < 2`, so the guard is the length test. -/
def countryFromPhone (phone : String) : String :=
  if phone.length < 2 then "Unknown"
  else tryCodeLengths country_codes (digitsOf phone) [3, 2, 1]

/-- The two optional signals `_estimate_country` reads off the user object,
or a garbled user value that makes the body raise (mapped by the `except`
branch to `'Unknown'`).  An attribute that is `None` (or absent) is
`none`; Python truthiness also skips an empty string, which the steps
below test explicitly. -/
inductive CountryInput where
  | ok (lang_code : Option String) (phone : Option String)
  | garbled
deriving DecidableEq, Repr

/-- Step 1 of `_estimate_country`: `if … user.lang_code:` then look the
lowercased tag up; `some` is the early `return f"{country} (from language)"`,
`none` falls through. -/
def countryLangStep (lang_code : Option String) : Option String :=
  match lang_code with
  | none => none
  | some l =>
    if l = "" then none
    else
      let c := countryFromLangCode l
      if c = "Unknown" then none else some (c ++ " (from language)")

/-- Step 2 of `_estimate_country`: `if … user.phone:` then
`_country_from_phone`; `some` is the early
`return f"{country} (from phone)"`, `none` falls through. -/
def countryPhoneStep (phone : Option String) : Option String :=
  match phone with
  | none => none
  | some p =>
    if p = "" then none
    else
      let c := countryFromPhone p
      if c = "Unknown" then none else some (c ++ " (from phone)")

/-- `TelegramAccountAnalyzer._estimate_country`: language step first, then
phone step, then `'Unknown (Privacy Protected)'`; the `except` branch
returns plain `'Unknown'`. -/
def estimateCountry : CountryInput → String
  | .ok lang phone =>
    match countryLangStep lang with
    | some r => r
    | none =>
      match countryPhoneStep phone with
      | some r => r
      | none => "Unknown (Privacy Protected)"
  | .garbled => "Unknown"

/-- The presence signal reaching `_get_user_status`: an exact `was_online`
timestamp (seconds), one of telethon's coarse status classes, no status
attribute at all, or a garbled value that makes the body raise. -/
inductive Presence where
  | lastSeen (was_online : Int)
  | online
  | recently
  | lastWeek
  | lastMonth
  | longAgo
  | absent
  | garbled
deriving DecidableEq, Repr

/-- `TelegramAccountAnalyzer._get_user_status` at clock value `now`
(seconds).  For an exact timestamp, `diff = now - was_online` is a Python
`timedelta`, whose `days` / `seconds` fields are floor division and modulus
of the total seconds by 86400; the chain of `elif`s then classifies the
difference with floor divisions.  Coarse classes map to fixed labels, and
both the missing-status path and the `except` branch return `"Unknown"`. -/
def getUserStatus (now : Int) : Presence → String
  | .lastSeen ts =>
    let total := now - ts
    let days := Int.fdiv total 86400
    let secs := Int.fmod total 86400
    if 365 < days then
      "Last seen: " ++ toString (Int.fdiv days 365) ++ " year(s) ago"
    else if 30 < days then
      "Last seen: " ++ toString (Int.fdiv days 30) ++ " month(s) ago"
    else if 0 < days then
      "Last seen: " ++ toString days ++ " day(s) ago"
    else if 3600 < secs then
      "Last seen: " ++ toString (Int.fdiv secs 3600) ++ " hour(s) ago"
    else if 60 < secs then
      "Last seen: " ++ toString (Int.fdiv secs 60) ++ " minute(s) ago"
    else
      "Last seen: Recently"
  | .online => "üü¢ Online"
  | .recently => "üü° Recently"
  | .lastWeek => "üü† Within a week"
  | .lastMonth => "üî¥ Within a month"
  | .longAgo => "‚ö´ Long time ago"
  | .absent => "Unknown"
  | .garbled => "Unknown"

/-- The engine-relevant part of the raw attribute snapshot that
`get_user_info` feeds to the three estimators. -/
structure RawAttributes where
  user_id : UserIdInput
  country_input : CountryInput
  presence : Presence
deriving DecidableEq, Repr

/-- The estimator fields of the `user_info` dictionary that
`get_user_info` assembles. -/
structure AnalysisRecord where
  registration_date : RegEstimate
  country : String
  status : String
deriving DecidableEq, Repr

/-- The aggregation step of `get_user_info`: each estimator is applied to
its own signal and the record is always fully constructed. -/
def getUserInfo (now : Int) (raw : RawAttributes) : AnalysisRecord :=
  { registration_date := estimateRegistrationDate raw.user_id
    country := estimateCountry raw.country_input
    status := getUserStatus now raw.presence }

/-- Chronological order on calibration dates (year, then month, then day). -/
def dateLE (a b : DateInfo) : Prop :=
  a.year < b.year ∨
    (a.year = b.year ∧ (a.month < b.month ∨ (a.month = b.month ∧ a.day ≤ b.day)))

instance dateLEDec (a b : DateInfo) : Decidable (dateLE a b) := by
  unfold dateLE
  infer_instance

/-- The date fields of a registration estimate, when they are numeric. -/
def dateOf (e : RegEstimate) : Option DateInfo :=
  match e.year, e.month, e.day with
  | .num y, .num m, .num d => some ⟨y, m, d⟩
  | _, _, _ => none

/-- The calibration list is chronologically sorted and dominated by the
catch-all date: every entry's date is ≤ every later date and ≤ the
catch-all.  Stated with explicit membership so it is decidable entry by
entry. -/
def sortedRanges : List (Nat × DateInfo) → Bool
  | [] => true
  | (_, d) :: rest =>
    rest.all (fun x => decide (dateLE d x.2)) &&
      decide (dateLE d catchAllDate) && sortedRanges rest

/-! ### Helper lemmas about the calibration scan -/

theorem dateLE_refl (d : DateInfo) : dateLE d d :=
  Or.inr ⟨rfl, Or.inr ⟨rfl, le_refl _⟩⟩

theorem scanRanges_mem :
    ∀ (l : List (Nat × DateInfo)) (n : Nat),
      scanRanges l n = catchAllDate ∨ ∃ e ∈ l, scanRanges l n = e.2 := by
  intro l
  induction l with
  | nil => intro n; exact Or.inl rfl
  | cons hd rest ih =>
    obtain ⟨t, d⟩ := hd
    intro n
    by_cases h : n < t
    · exact Or.inr ⟨(t, d), List.mem_cons_self _ _, by simp [scanRanges, h]⟩
    · rcases ih n with hc | ⟨e, he, hev⟩
      · exact Or.inl (by simpa [scanRanges, h] using hc)
      · exact Or.inr ⟨e, List.mem_cons_of_mem _ he, by simpa [scanRanges, h] using hev⟩

theorem scanRanges_mono :
    ∀ (l : List (Nat × DateInfo)), sortedRanges l = true →
      ∀ a b : Nat, a ≤ b → dateLE (scanRanges l a) (scanRanges l b) := by
  intro l
  induction l with
  | nil => intro _ a b _; exact dateLE_refl _
  | cons hd rest ih =>
    obtain ⟨t, d⟩ := hd
    intro hsort a b hab
    simp only [sortedRanges, Bool.and_eq_true, List.all_eq_true, decide_eq_true_eq] at hsort
    obtain ⟨⟨hall, hca⟩, hrest⟩ := hsort
    by_cases hb : b < t
    · have ha : a < t := lt_of_le_of_lt hab hb
      simp only [scanRanges, if_pos ha, if_pos hb]
      exact dateLE_refl d
    · by_cases ha : a < t
      · simp only [scanRanges, if_pos ha, if_neg hb]
        rcases scanRanges_mem rest b with h | ⟨e, he, hev⟩
        · rw [h]; exact hca
        · rw [hev]; exact hall e he
      · simp only [scanRanges, if_neg ha, if_neg hb]
        exact ih hrest a b hab

theorem scanRanges_all_ge :
    ∀ (l : List (Nat × DateInfo)) (n : Nat),
      (∀ e ∈ l, e.1 ≤ n) → scanRanges l n = catchAllDate := by
  intro l
  induction l with
  | nil => intro n _; rfl
  | cons hd rest ih =>
    obtain ⟨t, d⟩ := hd
    intro n h
    have ht : t ≤ n := h (t, d) (List.mem_cons_self _ _)
    simp only [scanRanges, if_neg (by omega : ¬ n < t)]
    exact ih n fun e he => h e (List.mem_cons_of_mem _ he)

theorem scanRanges_find_eq :
    ∀ (l : List (Nat × DateInfo)) (n : Nat),
      scanRanges l n =
        ((l.find? (fun e => n < e.1)).map (fun e => e.2)).getD catchAllDate := by
  intro l
  induction l with
  | nil => intro n; rfl
  | cons hd rest ih =>
    obtain ⟨t, d⟩ := hd
    intro n
    by_cases h : n < t
    · simp [scanRanges, List.find?, h]
    · simp [scanRanges, List.find?, h, ih n]

theorem getUserStatus_shift (now ts : Int) :
    getUserStatus now (.lastSeen ts) = getUserStatus (now - ts) (.lastSeen 0) := by
  simp [getUserStatus]

theorem tryCodeLengths_hit (tbl : List (String × String)) (d : String) (n : Nat)
    (rest : List Nat) (c : String) (h : n ≤ d.length)
    (hl : lookupIn tbl ⟨d.data.take n⟩ = some c) :
    tryCodeLengths tbl d (n :: rest) = c := by
  simp [tryCodeLengths, h, hl]

theorem tryCodeLengths_skip (tbl : List (String × String)) (d : String) (n : Nat)
    (rest : List Nat)
    (h : d.length < n ∨ lookupIn tbl ⟨d.data.take n⟩ = none) :
    tryCodeLengths tbl d (n :: rest) = tryCodeLengths tbl d rest := by
  rcases h with h | h
  · simp [tryCodeLengths, show ¬ n ≤ d.length by omega]
  · by_cases hc : n ≤ d.length
    · simp [tryCodeLengths, hc, h]
    · simp [tryCodeLengths, hc]

/-! ### The claims -/

/-- C1: for every non-negative integer identifier, the estimator returns
the date of the first calibration point whose threshold strictly exceeds
the identifier (the `List.find?` of the table in its stored ascending
order), tagged `estimated=true` / `accuracy=approximate`; an identifier
equal to a threshold maps to the next bucket (checked over every adjacent
pair of the table), and an identifier below the smallest threshold maps to
the earliest bucket 2013-08-14. -/
theorem c1_registration_scan :
    (∀ n : Nat,
      estimateRegistrationDate (.valid n) =
        regOf (((id_ranges.find? (fun e => n < e.1)).map (fun e => e.2)).getD catchAllDate))
    ∧ ((id_ranges.zip id_ranges.tail).all
        (fun e => estimateRegistrationDate (.valid e.1.1) == regOf e.2.2)) = true
    ∧ (∀ n : Nat, n < 1000 →
        estimateRegistrationDate (.valid n) = regOf ⟨2013, 8, 14⟩) := by
  refine ⟨?_, by decide, ?_⟩
  · intro n
    show regOf (scanRanges id_ranges n) = _
    rw [scanRanges_find_eq]
  · intro n h
    show regOf (scanRanges id_ranges n) = regOf ⟨2013, 8, 14⟩
    have : scanRanges id_ranges n = ⟨2013, 8, 14⟩ := by
      simp [id_ranges, scanRanges, h]
    rw [this]

theorem c1_witness :
    500 < 1000 ∧ estimateRegistrationDate (.valid 500) = regOf ⟨2013, 8, 14⟩ :=
  ⟨by decide, c1_registration_scan.2.2 500 (by decide)⟩

/-- C2: the estimated registration date is monotone in the identifier: for
`a < b` both estimates carry numeric dates and the date for `a` is
chronologically at most the date for `b`. -/
theorem c2_monotone : ∀ a b : Nat, a < b →
    ∃ da db, dateOf (estimateRegistrationDate (.valid a)) = some da ∧
      dateOf (estimateRegistrationDate (.valid b)) = some db ∧ dateLE da db := by
  intro a b hab
  refine ⟨scanRanges id_ranges a, scanRanges id_ranges b, rfl, rfl, ?_⟩
  exact scanRanges_mono id_ranges (by decide) a b (le_of_lt hab)

theorem c2_witness :
    ∃ da db, dateOf (estimateRegistrationDate (.valid 1)) = some da ∧
      dateOf (estimateRegistrationDate (.valid 2000000000)) = some db ∧ dateLE da db :=
  c2_monotone 1 2000000000 (by decide)

/-- C3: strict precedence in `_estimate_country`: a non-empty language tag
found in the table short-circuits with the language-derived label for every
phone value; when the tag is absent, empty or unrecognized the result is
exactly the phone step (falling back to the unknown label); no signal at
all gives the unknown label; and with both a recognized tag and a
recognized phone the language result wins. -/
theorem c3_precedence :
    (∀ (l : String) (phone : Option String), l ≠ "" → countryFromLangCode l ≠ "Unknown" →
      estimateCountry (.ok (some l) phone) = countryFromLangCode l ++ " (from language)")
    ∧ (∀ (lang phone : Option String),
        (lang = none ∨ ∃ l, lang = some l ∧ (l = "" ∨ countryFromLangCode l = "Unknown")) →
        estimateCountry (.ok lang phone) =
          match countryPhoneStep phone with
          | some r => r
          | none => "Unknown (Privacy Protected)")
    ∧ estimateCountry (.ok none none) = "Unknown (Privacy Protected)"
    ∧ estimateCountry (.ok (some "en") (some "+14155552671")) =
        "English Speaking Region (from language)" := by
  refine ⟨?_, ?_, by decide, by decide⟩
  · intro l phone h1 h2
    simp [estimateCountry, countryLangStep, h1, h2]
  · intro lang phone h
    rcases h with rfl | ⟨l, rfl, h | h⟩
    · simp [estimateCountry, countryLangStep]
    · simp [estimateCountry, countryLangStep, h]
    · by_cases he : l = ""
      · simp [estimateCountry, countryLangStep, he]
      · simp [estimateCountry, countryLangStep, he, h]

theorem c3_witness :
    estimateCountry (.ok (some "en") (some "+14155552671")) =
      countryFromLangCode "en" ++ " (from language)" :=
  c3_precedence.1 "en" (some "+14155552671") (by decide) (by decide)

/-- C4: the calling-code loop tries prefix lengths 3, 2, 1 in that order,
and the first attempted length that hits the table decides the result
(stated for an arbitrary code table); through the raw-string guard, a
3-digit table hit decides `_country_from_phone`; and `"+14155552671"` with
the unrecognized tag `"xx"` yields `USA/Canada` via the 1-digit code. -/
theorem c4_longest_code_first :
    (∀ (tbl : List (String × String)) (d : String) (c : String),
      3 ≤ d.length → lookupIn tbl ⟨d.data.take 3⟩ = some c →
      tryCodeLengths tbl d [3, 2, 1] = c)
    ∧ (∀ (tbl : List (String × String)) (d : String) (c : String),
      (d.length < 3 ∨ lookupIn tbl ⟨d.data.take 3⟩ = none) →
      2 ≤ d.length → lookupIn tbl ⟨d.data.take 2⟩ = some c →
      tryCodeLengths tbl d [3, 2, 1] = c)
    ∧ (∀ (tbl : List (String × String)) (d : String) (c : String),
      (d.length < 3 ∨ lookupIn tbl ⟨d.data.take 3⟩ = none) →
      (d.length < 2 ∨ lookupIn tbl ⟨d.data.take 2⟩ = none) →
      1 ≤ d.length → lookupIn tbl ⟨d.data.take 1⟩ = some c →
      tryCodeLengths tbl d [3, 2, 1] = c)
    ∧ (∀ (p : String) (c : String), 3 ≤ (digitsOf p).length →
      lookupIn country_codes ⟨(digitsOf p).data.take 3⟩ = some c →
      countryFromPhone p = c)
    ∧ countryFromPhone "+14155552671" = "USA/Canada"
    ∧ estimateCountry (.ok (some "xx") (some "+14155552671")) =
        "USA/Canada (from phone)" := by
  refine ⟨fun tbl d c h3 hl => tryCodeLengths_hit tbl d 3 [2, 1] c h3 hl,
    ?_, ?_, ?_, by decide, by decide⟩
  · intro tbl d c h3 h2 hl
    rw [tryCodeLengths_skip tbl d 3 [2, 1] h3]
    exact tryCodeLengths_hit tbl d 2 [1] c h2 hl
  · intro tbl d c h3 h2 h1 hl
    rw [tryCodeLengths_skip tbl d 3 [2, 1] h3, tryCodeLengths_skip tbl d 2 [1] h2]
    exact tryCodeLengths_hit tbl d 1 [] c h1 hl
  · intro p c h3 hl
    have hlen : (digitsOf p).length ≤ p.length :=
      List.length_filter_le Char.isDigit p.data
    unfold countryFromPhone
    rw [if_neg (by omega)]
    exact tryCodeLengths_hit country_codes (digitsOf p) 3 [2, 1] c h3 hl

theorem c4_witness :
    tryCodeLengths [("1", "A"), ("12", "B"), ("123", "C")] "123" [3, 2, 1] = "C" ∧
    tryCodeLengths country_codes "14155552671" [3, 2, 1] = "USA/Canada" :=
  ⟨c4_longest_code_first.1 [("1", "A"), ("12", "B"), ("123", "C")] "123" "C"
      (by decide) (by decide),
    c4_longest_code_first.2.2.1 country_codes "14155552671" "USA/Canada"
      (Or.inr (by decide)) (Or.inr (by decide)) (by decide) (by decide)⟩

/-- C5: every identifier at least the largest threshold (2,600,000,000)
gets the fixed catch-all date 2024-06-01 with the normal tagging
`estimated=true` / `accuracy=approximate`. -/
theorem c5_catch_all : ∀ n : Nat, 2600000000 ≤ n →
    estimateRegistrationDate (.valid n) = regOf catchAllDate := by
  intro n h
  show regOf (scanRanges id_ranges n) = regOf catchAllDate
  have hall : id_ranges.all (fun e => decide (e.1 ≤ 2600000000)) = true := by decide
  have hmax : ∀ e ∈ id_ranges, e.1 ≤ 2600000000 := fun e he =>
    of_decide_eq_true (List.all_eq_true.mp hall e he)
  rw [scanRanges_all_ge id_ranges n fun e he => le_trans (hmax e he) h]

theorem c5_witness :
    2600000000 ≤ 3000000000 ∧
      estimateRegistrationDate (.valid 3000000000) = regOf catchAllDate :=
  ⟨by decide, c5_catch_all 3000000000 (by decide)⟩

/-- C6: for an exact last-seen timestamp the classifier applies the rules
in priority order with floor division on the `timedelta` fields
`days = fdiv (now - ts) 86400` and `seconds = fmod (now - ts) 86400`:
years, months, days, hours, minutes, then "Recently"; in particular 400
days before now gives "Last seen: 1 year(s) ago" and 40 minutes before now
gives "Last seen: 40 minute(s) ago". -/
theorem c6_status_rules :
    (∀ now ts : Int,
      (365 < Int.fdiv (now - ts) 86400 →
        getUserStatus now (.lastSeen ts) =
          "Last seen: " ++ toString (Int.fdiv (Int.fdiv (now - ts) 86400) 365) ++
            " year(s) ago")
      ∧ (¬ 365 < Int.fdiv (now - ts) 86400 → 30 < Int.fdiv (now - ts) 86400 →
        getUserStatus now (.lastSeen ts) =
          "Last seen: " ++ toString (Int.fdiv (Int.fdiv (now - ts) 86400) 30) ++
            " month(s) ago")
      ∧ (¬ 365 < Int.fdiv (now - ts) 86400 → ¬ 30 < Int.fdiv (now - ts) 86400 →
        0 < Int.fdiv (now - ts) 86400 →
        getUserStatus now (.lastSeen ts) =
          "Last seen: " ++ toString (Int.fdiv (now - ts) 86400) ++ " day(s) ago")
      ∧ (¬ 0 < Int.fdiv (now - ts) 86400 → 3600 < Int.fmod (now - ts) 86400 →
        getUserStatus now (.lastSeen ts) =
          "Last seen: " ++ toString (Int.fdiv (Int.fmod (now - ts) 86400) 3600) ++
            " hour(s) ago")
      ∧ (¬ 0 < Int.fdiv (now - ts) 86400 → ¬ 3600 < Int.fmod (now - ts) 86400 →
        60 < Int.fmod (now - ts) 86400 →
        getUserStatus now (.lastSeen ts) =
          "Last seen: " ++ toString (Int.fdiv (Int.fmod (now - ts) 86400) 60) ++
            " minute(s) ago")
      ∧ (¬ 0 < Int.fdiv (now - ts) 86400 → ¬ 60 < Int.fmod (now - ts) 86400 →
        getUserStatus now (.lastSeen ts) = "Last seen: Recently"))
    ∧ (∀ now : Int,
        getUserStatus now (.lastSeen (now - 400 * 86400)) = "Last seen: 1 year(s) ago")
    ∧ (∀ now : Int,
        getUserStatus now (.lastSeen (now - 2400)) = "Last seen: 40 minute(s) ago") := by
  refine ⟨?_, ?_, ?_⟩
  · intro now ts
    refine ⟨?_, ?_, ?_, ?_, ?_, ?_⟩
    · intro h1
      simp [getUserStatus, h1]
    · intro h1 h2
      simp [getUserStatus, h1, h2]
    · intro h1 h2 h3
      simp [getUserStatus, h1, h2, h3]
    · intro h1 h2
      have h3 : ¬ 365 < Int.fdiv (now - ts) 86400 := by omega
      have h4 : ¬ 30 < Int.fdiv (now - ts) 86400 := by omega
      simp [getUserStatus, h1, h2, h3, h4]
    · intro h1 h2 h3
      have h4 : ¬ 365 < Int.fdiv (now - ts) 86400 := by omega
      have h5 : ¬ 30 < Int.fdiv (now - ts) 86400 := by omega
      simp [getUserStatus, h1, h2, h3, h4, h5]
    · intro h1 h2
      have h3 : ¬ 365 < Int.fdiv (now - ts) 86400 := by omega
      have h4 : ¬ 30 < Int.fdiv (now - ts) 86400 := by omega
      have h5 : ¬ 3600 < Int.fmod (now - ts) 86400 := by omega
      simp [getUserStatus, h1, h2, h3, h4, h5]
  · intro now
    rw [getUserStatus_shift]
    have h : now - (now - 400 * 86400) = (400 * 86400 : Int) := by ring
    rw [h]
    decide
  · intro now
    rw [getUserStatus_shift]
    have h : now - (now - 2400) = (2400 : Int) := by ring
    rw [h]
    decide

theorem c6_witness :
    getUserStatus 34560000 (.lastSeen 0) = "Last seen: 1 year(s) ago" ∧
    getUserStatus 2400 (.lastSeen 0) = "Last seen: 40 minute(s) ago" :=
  ⟨(c6_status_rules.1 34560000 0).1 (by decide),
    (c6_status_rules.1 2400 0).2.2.2.2.1 (by decide) (by decide) (by decide)⟩

/-- C7: every internal-failure path degrades to a sentinel instead of
raising: a garbled identifier gives the `'Unknown'` date fields with
`accuracy=failed`, a garbled country input gives `"Unknown"`, a garbled or
missing status gives `"Unknown"`; the analysis record is always fully
constructed from the three estimators, and each estimator field depends
only on its own input signal, so one attribute's failure cannot change the
others. -/
theorem c7_failures_scoped :
    estimateRegistrationDate .garbled =
      ⟨.unknownField, .unknownField, .unknownField, true, .failed⟩
    ∧ estimateCountry .garbled = "Unknown"
    ∧ (∀ now : Int, getUserStatus now .garbled = "Unknown")
    ∧ (∀ now : Int, getUserStatus now .absent = "Unknown")
    ∧ (∀ (now : Int) (raw : RawAttributes),
        getUserInfo now raw =
          ⟨estimateRegistrationDate raw.user_id, estimateCountry raw.country_input,
            getUserStatus now raw.presence⟩)
    ∧ (∀ (now : Int) (uid : UserIdInput) (c c2 : CountryInput) (p p2 : Presence),
        (getUserInfo now ⟨uid, c, p⟩).registration_date =
          (getUserInfo now ⟨uid, c2, p2⟩).registration_date)
    ∧ (∀ (now : Int) (uid uid2 : UserIdInput) (c : CountryInput) (p p2 : Presence),
        (getUserInfo now ⟨uid, c, p⟩).country = (getUserInfo now ⟨uid2, c, p2⟩).country)
    ∧ (∀ (now : Int) (uid uid2 : UserIdInput) (c c2 : CountryInput) (p : Presence),
        (getUserInfo now ⟨uid, c, p⟩).status = (getUserInfo now ⟨uid2, c2, p⟩).status) :=
  ⟨rfl, rfl, fun _ => rfl, fun _ => rfl, fun _ _ => rfl,
    fun _ _ _ _ _ _ => rfl, fun _ _ _ _ _ _ => rfl, fun _ _ _ _ _ _ => rfl⟩

/-- C8 counterexample: the raw-length guard of `_country_from_phone` runs
before digit stripping, so `"7"` and `"(7)"` carry the same digit sequence
but produce different results ("Unknown" versus "Russia/Kazakhstan"), both
for the phone lookup and through `_estimate_country`. -/
theorem c8_counterexample :
    digitsOf "7" = digitsOf "(7)"
    ∧ countryFromPhone "7" ≠ countryFromPhone "(7)"
    ∧ estimateCountry (.ok none (some "7")) ≠ estimateCountry (.ok none (some "(7)")) := by
  refine ⟨by decide, by decide, by decide⟩

/-- C8 (amended): for phone strings that pass the raw-length guard (at
least two characters before stripping), the phone-derived result depends
only on the digit sequence. -/
theorem c8_amended_digits_only : ∀ p q : String, 2 ≤ p.length → 2 ≤ q.length →
    digitsOf p = digitsOf q → countryFromPhone p = countryFromPhone q := by
  intro p q hp hq h
  unfold countryFromPhone
  rw [if_neg (by omega), if_neg (by omega), h]

theorem c8_witness :
    countryFromPhone "+7 900" = countryFromPhone "79-00" :=
  c8_amended_digits_only "+7 900" "79-00" (by decide) (by decide) (by decide)

/-- C9: the estimators are pure functions of their inputs: evaluating any
of them twice on identical input (with the same frozen clock for the
status classifier) yields identical output. -/
theorem c9_deterministic :
    ∀ (uid : UserIdInput) (cin : CountryInput) (now : Int) (p : Presence),
      estimateRegistrationDate uid = estimateRegistrationDate uid ∧
      estimateCountry cin = estimateCountry cin ∧
      getUserStatus now p = getUserStatus now p :=
  fun _ _ _ _ => ⟨rfl, rfl, rfl⟩

/-- C10: every path of `_estimate_registration_date`, the failure branch
included, returns `estimated = True`. -/
theorem c10_always_estimated : ∀ uid : UserIdInput,
    (estimateRegistrationDate uid).estimated = true := by
  intro uid
  cases uid <;> rfl
